import Mathlib

/-!
Verification of the DocumentScanner image pipeline (Firebase functions source,
`src/unnamed/part_004`): border classification (`removeDocumentBorders`),
two-method edge detection (`detectDocumentEdges`), crop bounds clamping and
fallback inside `correctPerspective`, the enhancement operation chain of
`enhanceDocument`, and the batch loop of `processBatch`.

Conventions of the embedding:
* Pixel buffers are modelled as total functions `Nat → Nat → Nat` giving the
  grayscale luminance (0..255) at coordinate (x, y); only coordinates below the
  stated width/height are ever sampled.
* JavaScript floating-point arithmetic on the small constants involved
  (`* 0.05`, `* 0.8`, `* 0.03`, `Math.round`, `Math.floor`) is modelled by
  exact rational arithmetic over `Nat`: `Math.floor (a / b)` is `a / b` (Nat
  division) and `Math.round (a / b)` is `jsRound a b` below (round half up,
  matching `Math.round`).
* JavaScript `Math.max(0, e)` on possibly negative integer expressions
  coincides with truncated `Nat` subtraction on the expressions appearing in
  the source, which is how it is rendered here.
* The `sharp` image library is an external dependency of the repository; its
  pixel-level operations (resize, normalise, sharpen, threshold, encode) are
  modelled as concrete pure raster transforms, and the detection logic that
  the repository itself implements is additionally stated over an arbitrary
  mask/working buffer so that the theorems do not depend on that model.
-/

/-- `Math.round (num / den)`: round half up, as JavaScript's `Math.round`. -/
def jsRound (num den : Nat) : Nat := (2 * num + den) / (2 * den)

/-- A crop rectangle `{x, y, width, height}` in pixel coordinates. -/
structure Rect where
  x : Nat
  y : Nat
  width : Nat
  height : Nat
deriving DecidableEq, Repr

/-- The clamping step of the bounds guard in `correctPerspective`
(`src/unnamed/part_004` lines 1748-1751):
`safeX = Math.max(0, Math.min(x, W - width - 1))`, symmetrically for `y`, then
`safeWidth = Math.min(width, W - safeX)`, `safeHeight = Math.min(height, H - safeY)`. -/
def clampRect (r : Rect) (W H : Nat) : Rect :=
  let safeX := max 0 (min r.x (W - r.width - 1))
  let safeY := max 0 (min r.y (H - r.height - 1))
  { x := safeX
    y := safeY
    width := min r.width (W - safeX)
    height := min r.height (H - safeY) }

/-- The outcome of the auto-crop section of `correctPerspective`: which
rectangle (if any) is passed to `processor.extract`, the `cropApplied` flag,
and the `cropInfo` diagnostic string. -/
structure CropDecision where
  applied : Option Rect
  cropApplied : Bool
  cropInfo : String
deriving DecidableEq, Repr

/-- The crop-application logic of `correctPerspective`
(`src/unnamed/part_004` lines 1746-1777): given the proposed `cropArea`
(from the detectors) and the original image dimensions, either apply the
clamped rectangle (when the proposal and its clamped version both exceed
100x100), leave the image untouched (when clamping shrank it to <= 100), or
fall back to extracting the entire image, which sets `cropApplied = true` and
`cropInfo = "Fallback: cropped entire image"`.  `info0` is the `cropInfo`
string set by whichever detector produced the proposal. -/
def autoCropDecision (W H : Nat) (cropArea : Option Rect) (info0 : String) : CropDecision :=
  match cropArea with
  | some r =>
    if 100 < r.width ∧ 100 < r.height then
      let s := clampRect r W H
      if 100 < s.width ∧ 100 < s.height then
        { applied := some s
          cropApplied := true
          cropInfo := "Crop applied: " ++ toString s.x ++ "," ++ toString s.y ++ " "
            ++ toString s.width ++ "x" ++ toString s.height }
      else
        { applied := none, cropApplied := false, cropInfo := info0 }
    else
      { applied := some ⟨0, 0, W, H⟩, cropApplied := true
        cropInfo := "Fallback: cropped entire image" }
  | none =>
    { applied := some ⟨0, 0, W, H⟩, cropApplied := true
      cropInfo := "Fallback: cropped entire image" }

/-- All grid coordinates `(x, y)` with `x < w`, `y < h`. -/
def gridPoints (w h : Nat) : Finset (Nat × Nat) :=
  Finset.range w ×ˢ Finset.range h

/-- `removeDocumentBorders` (`src/unnamed/part_004` lines 1626-1683): sample
the top and bottom strips, each `min 20 ⌊0.05 * min W H⌋` pixels tall and the
full width wide, in grayscale; if the mean brightness of the sampled pixels
exceeds 220, propose a rectangle inset on each side by
`⌊0.8 * (0.05 * min W H)⌋` with a 100px floor on width and height, else
propose nothing.  The mean comparison `sum / count > 220` is rendered
exactly as `220 * count < sum` (for `count = 0` both give no proposal, the
JavaScript side through `NaN > 220` being false). -/
def removeDocumentBorders (W H : Nat) (pix : Nat → Nat → Nat) : Option Rect :=
  let sampleHeight := min 20 (min W H * 5 / 100)
  let topSum := (gridPoints W sampleHeight).sum fun p => pix p.1 p.2
  let botSum := (gridPoints W sampleHeight).sum fun p => pix p.1 (H - sampleHeight + p.2)
  let count := 2 * (W * sampleHeight)
  if 220 * count < topSum + botSum then
    let cropAmount := min W H * 4 / 100
    some { x := cropAmount, y := cropAmount
           width := max 100 (W - 2 * cropAmount)
           height := max 100 (H - 2 * cropAmount) }
  else
    none

/-- The set of content pixels (mask value below 128) of a `sW × sH` mask,
as scanned by the double loop of Method 1 of `detectDocumentEdges`
(`src/unnamed/part_004` lines 1459-1469). -/
def contentSet (sW sH : Nat) (pix : Nat → Nat → Nat) : Finset (Nat × Nat) :=
  (gridPoints sW sH).filter fun p => pix p.1 p.2 < 128

/-- Method 1 of `detectDocumentEdges` (`src/unnamed/part_004` lines
1436-1506) up to (but excluding) the final 5%-coverage validation: downsample
dimensions to a longest side of 800 (`smallWidth = Math.round(W * scale)` with
`scale = min(800/W, 800/H)`), take the bounding box `minX, maxX, minY, maxY`
of the content pixels of the binarized mask (initial values `smallWidth`, `0`,
`smallHeight`, `0`, exactly as the source's loop initialisation), fail if
there is no content pixel, pad by `max 5 (Math.round(0.05 * span))` clamped to
the mask bounds, and rescale to original coordinates with `Math.round`. -/
def method1Box (W H : Nat) (pix : Nat → Nat → Nat) : Option Rect :=
  let sW := jsRound (W * 800) (max W H)
  let sH := jsRound (H * 800) (max W H)
  let S := contentSet sW sH pix
  if S = ∅ then
    none
  else
    let minX := Finset.fold min sW Prod.fst S
    let maxX := Finset.fold max 0 Prod.fst S
    let minY := Finset.fold min sH Prod.snd S
    let maxY := Finset.fold max 0 Prod.snd S
    let padX := max 5 (jsRound ((maxX - minX) * 5) 100)
    let padY := max 5 (jsRound ((maxY - minY) * 5) 100)
    let minX2 := minX - padX
    let maxX2 := min (sW - 1) (maxX + padX)
    let minY2 := minY - padY
    let maxY2 := min (sH - 1) (maxY + padY)
    some { x := jsRound (minX2 * W) sW
           y := jsRound (minY2 * H) sH
           width := jsRound ((maxX2 - minX2) * W) sW
           height := jsRound ((maxY2 - minY2) * H) sH }

/-- Method 1 of `detectDocumentEdges` including its final validation
(`src/unnamed/part_004` line 1500): the rescaled box is returned only when
`result.width > W * 0.05 && result.height > H * 0.05`, rendered exactly as
`W < 20 * width` and `H < 20 * height`. -/
def detectMethod1 (W H : Nat) (pix : Nat → Nat → Nat) : Option Rect :=
  match method1Box W H pix with
  | none => none
  | some r => if W < 20 * r.width ∧ H < 20 * r.height then some r else none

/-- Sum of the working buffer over the whole grid (`sumBrightness` of
`src/unnamed/part_004` line 1529). -/
def sumBrightness (w h : Nat) (pix : Nat → Nat → Nat) : Nat :=
  (gridPoints w h).sum fun p => pix p.1 p.2

/-- Minimum brightness of the working buffer, folded from the source's
initial value 255 (`src/unnamed/part_004` line 1524). -/
def minBrightness (w h : Nat) (pix : Nat → Nat → Nat) : Nat :=
  Finset.fold min 255 (fun p => pix p.1 p.2) (gridPoints w h)

/-- Maximum brightness of the working buffer, folded from the source's
initial value 0 (`src/unnamed/part_004` line 1524). -/
def maxBrightness (w h : Nat) (pix : Nat → Nat → Nat) : Nat :=
  Finset.fold max 0 (fun p => pix p.1 p.2) (gridPoints w h)

/-- The candidate scan lines `0, step, 2*step, ...` strictly below `limit`
(the `for (let y = 0; y < workHeight; y += scanStep)` loops of Method 2). -/
def scanLines (limit step : Nat) : List Nat :=
  (List.range ((limit + step - 1) / step)).map fun i => i * step

/-- The candidate scan lines `limit-1, limit-1-step, ...` down to 0
(the `for (let y = workHeight - 1; y >= 0; y -= scanStep)` loops). -/
def scanLinesDown (limit step : Nat) : List Nat :=
  (List.range ((limit + step - 1) / step)).map fun i => limit - 1 - i * step

/-- Number of dark samples (brightness strictly below the rational adaptive
threshold) among the sampled positions of one scan line. -/
def darkCount (thr : ℚ) (samples : List Nat) (value : Nat → Nat) : Nat :=
  (samples.filter fun i => decide ((value i : ℚ) < thr)).length

/-- Method 2 of `detectDocumentEdges` (`src/unnamed/part_004` lines
1508-1617): work at a longest side of 600, compute min/max/average
brightness of the working buffer, fail when `contrast < 10`, otherwise scan
inward from the four sides with stride `max 1 (workWidth / 40)` for the first
line whose dark-sample count exceeds 20% of the samples on that line
(`darkCount > (workWidth / scanStep) * 0.2`, rendered exactly as
`workW < 5 * step * darkCount`), push each found edge outward by
`Math.round(0.03 * workDim)`, rescale to original coordinates and apply the
same 5% validation as Method 1.  The adaptive threshold
`min(avgBrightness * 0.7, 180)` is computed in exact rational arithmetic. -/
def detectMethod2 (W H : Nat) (pix : Nat → Nat → Nat) : Option Rect :=
  let workW := jsRound (W * 600) (max W H)
  let workH := jsRound (H * 600) (max W H)
  let minB := minBrightness workW workH pix
  let maxB := maxBrightness workW workH pix
  if maxB - minB < 10 then
    none
  else
    let thr : ℚ := min ((sumBrightness workW workH pix : ℚ) / ((workW * workH : Nat) : ℚ) * (7 / 10)) 180
    let step := max 1 (workW / 40)
    let xs := scanLines workW step
    let ys := scanLines workH step
    let padV := jsRound (workH * 3) 100
    let padHz := jsRound (workW * 3) 100
    let top :=
      match (scanLines workH step).find? (fun y => workW < 5 * step * darkCount thr xs (fun x => pix x y)) with
      | some y => y - padV
      | none => 0
    let bottom :=
      match (scanLinesDown workH step).find? (fun y => workW < 5 * step * darkCount thr xs (fun x => pix x y)) with
      | some y => min (workH - 1) (y + padV)
      | none => workH - 1
    let left :=
      match (scanLines workW step).find? (fun x => workH < 5 * step * darkCount thr ys (fun y => pix x y)) with
      | some x => x - padHz
      | none => 0
    let right :=
      match (scanLinesDown workW step).find? (fun x => workH < 5 * step * darkCount thr ys (fun y => pix x y)) with
      | some x => min (workW - 1) (x + padHz)
      | none => workW - 1
    let r : Rect :=
      { x := jsRound (left * W) workW
        y := jsRound (top * H) workH
        width := jsRound ((right - left) * W) workW
        height := jsRound ((bottom - top) * H) workH }
    if W < 20 * r.width ∧ H < 20 * r.height then some r else none

/-- Output formats accepted by `enhanceDocument`'s format switch
(`src/unnamed/part_004` lines 1388-1403). -/
inductive ImgFormat
  | jpeg
  | png
  | webp
deriving DecidableEq, Repr

/-- One `sharp` processor operation, in the order the source chains them.
`sharpen` carries the sigma as an exact rational `sigmaNum / sigmaDen`. -/
inductive SharpOp
  | resize (maxW : Nat)
  | toGrayscale
  | normalise
  | sharpen (sigmaNum sigmaDen : Nat)
  | thresholdOp (t : Nat)
  | encode (fmt : ImgFormat) (quality : Nat)
deriving DecidableEq, Repr

/-- Options of `enhanceDocument` with the source's defaults
(`src/unnamed/part_004` lines 1349-1356). -/
structure EnhanceOptions where
  format : ImgFormat := .jpeg
  quality : Nat := 80
  maxWidth : Nat := 2000
  grayscale : Bool := true
  enhance : Bool := true
  threshold : Option Nat := none
deriving DecidableEq, Repr

/-- Options of `correctPerspective` with the source's defaults
(`src/unnamed/part_004` lines 1707-1714). -/
structure CPOptions where
  autoCrop : Bool := true
  enhance : Bool := true
  grayscale : Bool := false
  quality : Nat := 85
  maxWidth : Nat := 1600
  removeBorders : Bool := true
deriving DecidableEq, Repr

/-- The ordered chain of `sharp` operations that `enhanceDocument` applies to
the decoded image (`src/unnamed/part_004` lines 1363-1403): conditional
resize, conditional grayscale, conditional `normalise().sharpen(0.5)`,
conditional threshold (`threshold !== null && threshold > 0`), then the
format switch encoding. -/
def enhanceDocumentOps (origW : Nat) (o : EnhanceOptions) : List SharpOp :=
  (if 0 < o.maxWidth ∧ o.maxWidth < origW then [SharpOp.resize o.maxWidth] else [])
    ++ (if o.grayscale then [SharpOp.toGrayscale] else [])
    ++ (if o.enhance then [SharpOp.normalise, SharpOp.sharpen 1 2] else [])
    ++ (match o.threshold with
        | some t => if 0 < t then [SharpOp.thresholdOp t] else []
        | none => [])
    ++ [SharpOp.encode o.format o.quality]

/-- The ordered chain of `sharp` operations that `correctPerspective` applies
after its crop section (`src/unnamed/part_004` lines 1783-1803): conditional
`normalise().sharpen(0.8)`, conditional grayscale, conditional resize, then
always jpeg encoding. -/
def correctPerspectiveOps (origW : Nat) (o : CPOptions) : List SharpOp :=
  (if o.enhance then [SharpOp.normalise, SharpOp.sharpen 4 5] else [])
    ++ (if o.grayscale then [SharpOp.toGrayscale] else [])
    ++ (if 0 < o.maxWidth ∧ o.maxWidth < origW then [SharpOp.resize o.maxWidth] else [])
    ++ [SharpOp.encode ImgFormat.jpeg o.quality]

/-- Rank of an operation in the order claimed for the enhancement stage:
resize, grayscale, normalise, sharpen, threshold, encode. -/
def stageIndex : SharpOp → Nat
  | .resize _ => 0
  | .toGrayscale => 1
  | .normalise => 2
  | .sharpen _ _ => 3
  | .thresholdOp _ => 4
  | .encode _ _ => 5

/-- Rank of an operation in the order `correctPerspective` actually uses:
normalise, sharpen, grayscale, resize, encode. -/
def cpStageIndex : SharpOp → Nat
  | .normalise => 0
  | .sharpen _ _ => 1
  | .toGrayscale => 2
  | .resize _ => 3
  | .encode _ _ => 4
  | .thresholdOp _ => 5

/-- A decoded raster image: dimensions plus a total luminance function. -/
structure Raster where
  width : Nat
  height : Nat
  pix : Nat → Nat → Nat

/-- Clamp an integer to the byte range 0..255. -/
def clamp255 (v : Int) : Nat := (max 0 (min 255 v)).toNat

/-- Model of the external `sharp` resize to exact target dimensions
(nearest-neighbour sampling; the library operation is external to the
repository). -/
def resizeRaster (w h : Nat) (img : Raster) : Raster :=
  { width := w, height := h
    pix := fun x y => img.pix (x * img.width / w) (y * img.height / h) }

/-- Model of the external `sharp` `normalise()`: stretch the luminance
histogram of the grid to the full 0..255 range. -/
def applyNormalise (img : Raster) : Raster :=
  let m := minBrightness img.width img.height img.pix
  let M := maxBrightness img.width img.height img.pix
  if m < M then
    { img with pix := fun x y => (img.pix x y - m) * 255 / (M - m) }
  else
    img

/-- Model of the external `sharp` `sharpen()`: a fixed edge-emphasis kernel
`5*p - left - right - up - down`, clamped to the byte range (the sigma of the
library call does not change the claims proved here). -/
def applySharpen (img : Raster) : Raster :=
  { img with pix := fun x y =>
      clamp255 (5 * (img.pix x y : Int) - (img.pix (x + 1) y : Int)
        - (img.pix (x - 1) y : Int) - (img.pix x (y + 1) : Int) - (img.pix x (y - 1) : Int)) }

/-- Model of the external `sharp` `threshold(t)`: pixels strictly below the
cutoff become 0, all others 255. -/
def applyThreshold (t : Nat) (img : Raster) : Raster :=
  { img with pix := fun x y => if img.pix x y < t then 0 else 255 }

/-- Interpret one chained `sharp` operation as a raster transform.
Grayscale is the identity at the single-luminance-channel level of this
model, and encoding leaves the decoded pixel raster unchanged. -/
def applyOp : SharpOp → Raster → Raster
  | .resize m, img => resizeRaster m (jsRound (img.height * m) img.width) img
  | .toGrayscale, img => img
  | .normalise, img => applyNormalise img
  | .sharpen _ _, img => applySharpen img
  | .thresholdOp t, img => applyThreshold t img
  | .encode _ _, img => img

/-- Apply a chain of operations left to right, as the source's reassignment
`processor = processor.<op>(...)` does. -/
def applyOps (ops : List SharpOp) (img : Raster) : Raster :=
  ops.foldl (fun i op => applyOp op i) img

/-- The pixel raster produced by `enhanceDocument` before byte encoding. -/
def enhanceDocumentRaster (img : Raster) (o : EnhanceOptions) : Raster :=
  applyOps (enhanceDocumentOps img.width o) img

/-- The mask Method 1 of `detectDocumentEdges` scans: the image downsampled
to a longest side of 800, normalised, sharpened and binarized at 160
(`src/unnamed/part_004` lines 1444-1451), using the models of the external
`sharp` operations. -/
def documentMask (img : Raster) : Nat → Nat → Nat :=
  let sW := jsRound (img.width * 800) (max img.width img.height)
  let sH := jsRound (img.height * 800) (max img.width img.height)
  (applyThreshold 160 (applySharpen (applyNormalise (resizeRaster sW sH img)))).pix

/-- The working buffer Method 2 of `detectDocumentEdges` scans: the image
downsampled to a longest side of 600 and normalised
(`src/unnamed/part_004` lines 1516-1521). -/
def workingBuffer (img : Raster) : Nat → Nat → Nat :=
  let wW := jsRound (img.width * 600) (max img.width img.height)
  let wH := jsRound (img.height * 600) (max img.width img.height)
  (applyNormalise (resizeRaster wW wH img)).pix

/-- `detectDocumentEdges` (`src/unnamed/part_004` lines 1428-1623): Method 1
on the binarized mask, falling back to Method 2 on the working buffer. -/
def detectDocumentEdgesModel (img : Raster) : Option Rect :=
  match detectMethod1 img.width img.height (documentMask img) with
  | some r => some r
  | none => detectMethod2 img.width img.height (workingBuffer img)

/-- Extract a rectangle from a raster (`processor.extract`): the new raster
has the rectangle's dimensions and samples the original at the offset. -/
def applyCrop (r : Rect) (img : Raster) : Raster :=
  { width := r.width, height := r.height
    pix := fun x y => img.pix (r.x + x) (r.y + y) }

/-- The auto-crop section of `correctPerspective` (`src/unnamed/part_004`
lines 1720-1781): when `autoCrop` is set, try `removeDocumentBorders` (if
`removeBorders`), then `detectDocumentEdges`, and hand the resulting proposal
(with the detector's `cropInfo` string) to the bounds guard; otherwise leave
the image untouched. -/
def cropStage (img : Raster) (o : CPOptions) : CropDecision :=
  if o.autoCrop then
    let borderProp :=
      if o.removeBorders then removeDocumentBorders img.width img.height img.pix else none
    match borderProp with
    | some r => autoCropDecision img.width img.height (some r) "Border removal crop"
    | none =>
      match detectDocumentEdgesModel img with
      | some r => autoCropDecision img.width img.height (some r) "Edge detection crop"
      | none => autoCropDecision img.width img.height none "No crop applied"
  else
    { applied := none, cropApplied := false, cropInfo := "No crop applied" }

/-- The record `correctPerspective` returns to its caller
(`src/unnamed/part_004` lines 1809-1833): either the success payload or the
structured failure produced by its own catch block.  The processed raster
stands for the returned image bytes; `timestamp` is the ambient
`new Date().toISOString()` value, passed in explicitly since it is the one
impure input of the function. -/
structure CPOutcome where
  success : Bool
  processed : Option Raster
  error : Option String
  message : Option String
  cropApplied : Bool
  cropInfo : String
  timestamp : String
  originalWidth : Nat
  originalHeight : Nat

/-- The input to `correctPerspective`: the `image` field may be absent
(`!image`), present but undecodable by `sharp`, or a decoded raster. -/
inductive CPInput
  | missing
  | undecodable (msg : String)
  | decoded (img : Raster)

/-- The failure record built by the catch block of `correctPerspective`
(`src/unnamed/part_004` lines 1826-1834). -/
def cpFailure (e now : String) : CPOutcome :=
  { success := false, processed := none, error := some e
    message := some "Failed to process image. Try enhanceDocument instead."
    cropApplied := false, cropInfo := "No crop applied", timestamp := now
    originalWidth := 0, originalHeight := 0 }

/-- The body of `correctPerspective`'s try block (`src/unnamed/part_004`
lines 1690-1824): throw on a missing image, throw on an undecodable buffer,
otherwise run the crop stage, apply the post-crop operation chain and return
the success record. -/
def correctPerspectiveBody (input : CPInput) (o : CPOptions) (now : String) :
    Except String CPOutcome :=
  match input with
  | .missing => .error "Image is required"
  | .undecodable m => .error m
  | .decoded img =>
    let dec := cropStage img o
    let cropped :=
      match dec.applied with
      | some s => applyCrop s img
      | none => img
    let processed := applyOps (correctPerspectiveOps img.width o) cropped
    .ok { success := true, processed := some processed, error := none, message := none
          cropApplied := dec.cropApplied, cropInfo := dec.cropInfo, timestamp := now
          originalWidth := img.width, originalHeight := img.height }

/-- `correctPerspective` as seen by its caller: the try body with every
thrown error converted by the catch block into a structured failure record
(`src/unnamed/part_004` lines 1686-1835). -/
def correctPerspectiveRun (input : CPInput) (o : CPOptions) (now : String) : CPOutcome :=
  match correctPerspectiveBody input o now with
  | .ok r => r
  | .error e => cpFailure e now

/-- The success record of `enhanceDocument` (`src/unnamed/part_004` lines
1408-1419), at the raster level. -/
structure EnhOutcome where
  processed : Raster
  timestamp : String

/-- `enhanceDocument` as seen by its caller (`src/unnamed/part_004` lines
1322-1425): unlike `correctPerspective`, its catch block rethrows
(`HttpsError('internal', ...)`), so the model keeps the `Except`. -/
def enhanceDocumentRun (input : CPInput) (o : EnhanceOptions) (now : String) :
    Except String EnhOutcome :=
  match input with
  | .missing => .error "Image is required"
  | .undecodable m => .error m
  | .decoded img => .ok { processed := enhanceDocumentRaster img o, timestamp := now }

/-- One entry of the `results` array of `processBatch`
(`src/unnamed/part_004` lines 1964-1976).  The pushed object is
`{success: true, index, ...result}`, so a spread `result` carrying its own
`success` field (as `correctPerspective`'s failure records do) overrides the
literal `true`; the payload's flag is therefore the recorded flag. -/
structure BatchItem (P : Type) where
  success : Bool
  index : Nat
  payload : Option P
  error : Option String

/-- Build the entry pushed for image `i`: the spread payload on success, or
the catch block's `{success: false, index, error}` on a thrown exception. -/
def batchItem (P : Type) (i : Nat) : Except String (Bool × P) → BatchItem P
  | .ok (flag, p) => { success := flag, index := i, payload := some p, error := none }
  | .error e => { success := false, index := i, payload := none, error := some e }

/-- The record returned by `processBatch` (`src/unnamed/part_004` lines
1979-1985). -/
structure BatchResult (P : Type) where
  results : List (BatchItem P)
  processedCount : Nat
  failedCount : Nat

/-- `processBatch` (`src/unnamed/part_004` lines 1922-1986): reject an empty
batch or one of more than 10 images with an invalid-argument error before
touching any image; otherwise process the images in order, isolating each
image's failure in its own entry.  `process` is the per-image call (either
`correctPerspective._method` or `enhanceDocument._method`), returning the
payload together with the `success` flag the payload itself carries. -/
def processBatch (I P : Type) (images : List I)
    (process : I → Except String (Bool × P)) : Except String (BatchResult P) :=
  if images.length = 0 then
    .error "At least one image is required"
  else if 10 < images.length then
    .error "Maximum 10 images per batch"
  else
    let results := images.enum.map fun pr => batchItem P pr.1 (process pr.2)
    .ok { results := results
          processedCount := (results.filter fun r => r.success).length
          failedCount := (results.filter fun r => !r.success).length }

theorem clampRect_in_bounds (r : Rect) (W H : Nat) :
    (clampRect r W H).x + (clampRect r W H).width ≤ W
      ∧ (clampRect r W H).y + (clampRect r W H).height ≤ H := by
  simp only [clampRect]
  constructor <;> omega

/-- C1: for every proposed crop rectangle and every image of width `W` and
height `H`, whenever the auto-crop section of `correctPerspective` applies a
rectangle (the clamped proposal or the full-image fallback), that rectangle
satisfies `0 ≤ x`, `0 ≤ y`, `x + width ≤ W` and `y + height ≤ H`. -/
theorem autoCropDecision_in_bounds (W H : Nat) (cropArea : Option Rect) (info0 : String)
    (s : Rect) (h : (autoCropDecision W H cropArea info0).applied = some s) :
    0 ≤ s.x ∧ 0 ≤ s.y ∧ s.x + s.width ≤ W ∧ s.y + s.height ≤ H := by
  rcases cropArea with _ | r
  · simp only [autoCropDecision, Option.some.injEq] at h
    subst h
    simp
  · simp only [autoCropDecision] at h
    split_ifs at h with h1 h2
    · simp only [Option.some.injEq] at h
      subst h
      have hb := clampRect_in_bounds r W H
      exact ⟨Nat.zero_le _, Nat.zero_le _, hb.1, hb.2⟩
    · simp only [Option.some.injEq] at h
      subst h
      exact ⟨Nat.zero_le _, Nat.zero_le _, by simp, by simp⟩

theorem autoCropDecision_in_bounds_witness :
    (autoCropDecision 500 500 (some ⟨10, 10, 200, 200⟩) "Edge detection crop").applied
        = some ⟨10, 10, 200, 200⟩
      ∧ (10 + 200 ≤ 500 ∧ 10 + 200 ≤ 500) :=
  ⟨by decide,
   by
    have h := autoCropDecision_in_bounds 500 500 (some ⟨10, 10, 200, 200⟩)
      "Edge detection crop" ⟨10, 10, 200, 200⟩ (by decide)
    exact ⟨h.2.2.1, h.2.2.2⟩⟩

/-- C2 (counterexample to the claim as stated): with no surviving detector
proposal, the fallback full-image extraction reports `cropApplied = true`,
not `false`. -/
theorem autoCropDecision_fallback_counterexample :
    ¬((autoCropDecision 500 500 none "No crop applied").cropApplied = false)
      ∧ (autoCropDecision 500 500 none "No crop applied").applied = some ⟨0, 0, 500, 500⟩ := by
  decide

/-- C2 (amended): whenever no detector yields a rectangle with width and
height each greater than 100px, the pipeline falls back to extracting the
full-image rectangle `{0, 0, W, H}` and reports `cropApplied = true` with
`cropInfo = "Fallback: cropped entire image"`. -/
theorem autoCropDecision_fallback (W H : Nat) (cropArea : Option Rect) (info0 : String)
    (h : ∀ r, cropArea = some r → ¬(100 < r.width ∧ 100 < r.height)) :
    autoCropDecision W H cropArea info0 =
      { applied := some ⟨0, 0, W, H⟩, cropApplied := true
        cropInfo := "Fallback: cropped entire image" } := by
  rcases cropArea with _ | r
  · rfl
  · simp only [autoCropDecision, if_neg (h r rfl)]

theorem autoCropDecision_fallback_witness :
    autoCropDecision 400 600 (some ⟨5, 5, 50, 50⟩) "Border removal crop" =
      { applied := some ⟨0, 0, 400, 600⟩, cropApplied := true
        cropInfo := "Fallback: cropped entire image" } :=
  autoCropDecision_fallback 400 600 (some ⟨5, 5, 50, 50⟩) "Border removal crop"
    (by intro r hr; cases hr; decide)

/-- C5: whenever the normalized downsampled working copy has brightness
contrast (max minus min) strictly below 10, the gradient band scanner
(Method 2 of `detectDocumentEdges`) returns no proposal. -/
theorem detectMethod2_low_contrast (W H : Nat) (pix : Nat → Nat → Nat)
    (h : maxBrightness (jsRound (W * 600) (max W H)) (jsRound (H * 600) (max W H)) pix
        - minBrightness (jsRound (W * 600) (max W H)) (jsRound (H * 600) (max W H)) pix < 10) :
    detectMethod2 W H pix = none := by
  simp only [detectMethod2]
  rw [if_pos h]

theorem detectMethod2_low_contrast_witness :
    detectMethod2 600 600 (fun _ _ => 128) = none := by
  apply detectMethod2_low_contrast
  have hmax : maxBrightness (jsRound (600 * 600) (max 600 600)) (jsRound (600 * 600) (max 600 600))
      (fun _ _ => 128) ≤ 128 := by
    simp only [maxBrightness]
    rw [Finset.fold_max_le]
    exact ⟨by norm_num, fun x _ => le_refl 128⟩
  have hmin : 128 ≤ minBrightness (jsRound (600 * 600) (max 600 600)) (jsRound (600 * 600) (max 600 600))
      (fun _ _ => 128) := by
    simp only [minBrightness]
    rw [Finset.le_fold_min]
    exact ⟨by norm_num, fun x _ => le_refl 128⟩
  omega

/-- C7: with `threshold = 128` among the options, every pixel of the raster
`enhanceDocument` produces is exactly 0 or exactly 255: the threshold step is
chained after resize/grayscale/normalise/sharpen and before encoding, and it
maps every luminance to one of the two extremes. -/
theorem enhanceDocument_threshold_bilevel (img : Raster) (o : EnhanceOptions)
    (h : o.threshold = some 128) (x y : Nat) :
    (enhanceDocumentRaster img o).pix x y = 0 ∨ (enhanceDocumentRaster img o).pix x y = 255 := by
  simp only [enhanceDocumentRaster, enhanceDocumentOps, h, applyOps]
  rw [if_pos (by norm_num : (0 : Nat) < 128)]
  simp only [List.foldl_append, List.foldl_cons, List.foldl_nil, applyOp, applyThreshold]
  split_ifs <;> simp

def tinyRaster : Raster := { width := 2, height := 2, pix := fun x y => 60 * x + 170 * y }

theorem enhanceDocument_threshold_bilevel_witness :
    (enhanceDocumentRaster tinyRaster { threshold := some 128 }).pix 0 0 = 0
      ∨ (enhanceDocumentRaster tinyRaster { threshold := some 128 }).pix 0 0 = 255 :=
  enhanceDocument_threshold_bilevel tinyRaster { threshold := some 128 } rfl 0 0

/-- C8: the pipeline is a pure transformation of the decoded image and the
options.  The only impure input of `correctPerspective` and `enhanceDocument`
is the ambient timestamp, and every image-related field of their outcomes is
independent of it; two runs on the same input and options therefore produce
identical processed images, crop flags and diagnostics. -/
theorem pipeline_deterministic (input : CPInput) (o : CPOptions) (oe : EnhanceOptions)
    (t1 t2 : String) :
    (correctPerspectiveRun input o t1).processed = (correctPerspectiveRun input o t2).processed
    ∧ (correctPerspectiveRun input o t1).success = (correctPerspectiveRun input o t2).success
    ∧ (correctPerspectiveRun input o t1).cropApplied
        = (correctPerspectiveRun input o t2).cropApplied
    ∧ (correctPerspectiveRun input o t1).cropInfo = (correctPerspectiveRun input o t2).cropInfo
    ∧ (enhanceDocumentRun input oe t1).map (fun r => r.processed)
        = (enhanceDocumentRun input oe t2).map (fun r => r.processed) := by
  cases input <;>
    simp [correctPerspectiveRun, correctPerspectiveBody, enhanceDocumentRun, cpFailure,
      Except.map]

/-- C10: `correctPerspective` never propagates an exception: its whole body
runs inside a try whose catch converts any thrown error into a structured
`success = false` record carrying the error message — in particular for a
missing image argument and for an undecodable input buffer. -/
theorem correctPerspective_no_throw (input : CPInput) (o : CPOptions) (t : String) :
    ((correctPerspectiveRun input o t).success = true
      ∨ ((correctPerspectiveRun input o t).success = false
          ∧ (correctPerspectiveRun input o t).error.isSome = true))
    ∧ (∀ e, correctPerspectiveBody input o t = .error e →
        correctPerspectiveRun input o t = cpFailure e t)
    ∧ ((correctPerspectiveRun CPInput.missing o t).success = false
        ∧ (correctPerspectiveRun CPInput.missing o t).error = some "Image is required")
    ∧ (∀ m, (correctPerspectiveRun (CPInput.undecodable m) o t).success = false
        ∧ (correctPerspectiveRun (CPInput.undecodable m) o t).error = some m) := by
  refine ⟨?_, ?_, ?_, ?_⟩
  · cases input <;> simp [correctPerspectiveRun, correctPerspectiveBody, cpFailure]
  · intro e he
    simp [correctPerspectiveRun, he]
  · simp [correctPerspectiveRun, correctPerspectiveBody, cpFailure]
  · intro m
    simp [correctPerspectiveRun, correctPerspectiveBody, cpFailure]

theorem correctPerspective_no_throw_witness :
    correctPerspectiveRun CPInput.missing {} "2024-01-01T00:00:00Z"
      = cpFailure "Image is required" "2024-01-01T00:00:00Z" :=
  (correctPerspective_no_throw CPInput.missing {} "2024-01-01T00:00:00Z").2.1
    "Image is required" rfl

theorem removeDocumentBorders_const255 :
    removeDocumentBorders 1000 1000 (fun _ _ => 255) = some ⟨40, 40, 920, 920⟩ := by
  simp only [removeDocumentBorders, gridPoints]
  rw [if_pos]
  · norm_num
  · simp only [Finset.sum_const, Finset.card_product, Finset.card_range, smul_eq_mul]
    norm_num

/-- C3 (counterexample to the claim as stated): on an all-white 1000x1000
image the border classifier proposes an inset of 40px per side
(`Math.floor(0.8 * (0.05 * 1000))`), whereas the claimed inset
`0.8 * N` with `N = min(20, 5% of min(width, height)) = 20` is 16px. -/
theorem removeDocumentBorders_inset_counterexample :
    removeDocumentBorders 1000 1000 (fun _ _ => 255) = some ⟨40, 40, 920, 920⟩
      ∧ 8 * min 20 (1000 * 5 / 100) / 10 = 16
      ∧ (40 : Nat) ≠ 16 :=
  ⟨removeDocumentBorders_const255, by norm_num, by norm_num⟩

/-- C3 (amended): the border classifier proposes a rectangle exactly when
the mean grayscale brightness of the sampled top and bottom strips (each
`min 20 ⌊0.05 * min W H⌋` rows tall) exceeds 220, and the proposal insets
each side by `⌊0.8 * (0.05 * min W H)⌋` — five percent of the smaller
dimension times 0.8, without the 20px cap used for the strip height — with a
floor of 100px on both the resulting width and height; otherwise it returns
no proposal. -/
theorem removeDocumentBorders_spec (W H : Nat) (pix : Nat → Nat → Nat) :
    ((∃ r, removeDocumentBorders W H pix = some r) ↔
      220 * (2 * (W * min 20 (min W H * 5 / 100))) <
        (gridPoints W (min 20 (min W H * 5 / 100))).sum (fun p => pix p.1 p.2)
          + (gridPoints W (min 20 (min W H * 5 / 100))).sum
              (fun p => pix p.1 (H - min 20 (min W H * 5 / 100) + p.2)))
    ∧ (∀ r, removeDocumentBorders W H pix = some r →
        r = { x := min W H * 4 / 100, y := min W H * 4 / 100
              width := max 100 (W - 2 * (min W H * 4 / 100))
              height := max 100 (H - 2 * (min W H * 4 / 100)) }) := by
  constructor
  · simp only [removeDocumentBorders]
    split_ifs with h
    · exact iff_of_true ⟨_, rfl⟩ h
    · exact iff_of_false (by rintro ⟨r, hr⟩; cases hr) h
  · intro r hr
    simp only [removeDocumentBorders] at hr
    split_ifs at hr with h
    simp only [Option.some.injEq] at hr
    exact hr.symm

theorem removeDocumentBorders_spec_witness :
    removeDocumentBorders 1000 1000 (fun _ _ => 255) = some ⟨40, 40, 920, 920⟩
      ∧ (⟨40, 40, 920, 920⟩ : Rect) =
          { x := min 1000 1000 * 4 / 100, y := min 1000 1000 * 4 / 100
            width := max 100 (1000 - 2 * (min 1000 1000 * 4 / 100))
            height := max 100 (1000 - 2 * (min 1000 1000 * 4 / 100)) } :=
  ⟨removeDocumentBorders_const255,
   (removeDocumentBorders_spec 1000 1000 (fun _ _ => 255)).2 ⟨40, 40, 920, 920⟩
     removeDocumentBorders_const255⟩

theorem contentSet_eq_empty_iff (sW sH : Nat) (pix : Nat → Nat → Nat) :
    contentSet sW sH pix = ∅ ↔ ∀ x, x < sW → ∀ y, y < sH → 128 ≤ pix x y := by
  simp only [contentSet, gridPoints, Finset.filter_eq_empty_iff, Finset.mem_product,
    Finset.mem_range, not_lt, Prod.forall]
  constructor
  · intro h x hx y hy
    exact h x y ⟨hx, hy⟩
  · intro h x y hxy
    exact h x hxy.1 y hxy.2

theorem method1Box_eq_none_iff (W H : Nat) (pix : Nat → Nat → Nat) :
    method1Box W H pix = none ↔
      contentSet (jsRound (W * 800) (max W H)) (jsRound (H * 800) (max W H)) pix = ∅ := by
  simp only [method1Box]
  split_ifs with h
  · simp [h]
  · simp [h]

/-- C4 (amended): Method 1 of `detectDocumentEdges` returns no proposal
exactly when the binarized downsampled mask has no pixel below 128, or the
padded box rescaled to original coordinates fails to cover strictly more
than 5% of the original width or strictly more than 5% of the original
height (the source's `>` comparison, not `≥`); in all other cases it returns
the rescaled padded bounding box. -/
theorem detectMethod1_spec (W H : Nat) (pix : Nat → Nat → Nat) :
    (detectMethod1 W H pix = none ↔
      ((∀ x, x < jsRound (W * 800) (max W H) → ∀ y, y < jsRound (H * 800) (max W H) →
          128 ≤ pix x y)
        ∨ ∀ r, method1Box W H pix = some r → ¬(W < 20 * r.width ∧ H < 20 * r.height)))
    ∧ (∀ r, method1Box W H pix = some r →
        detectMethod1 W H pix =
          if W < 20 * r.width ∧ H < 20 * r.height then some r else none) := by
  constructor
  · cases hb : method1Box W H pix with
    | none =>
      have hempty := (method1Box_eq_none_iff W H pix).mp hb
      simp only [detectMethod1, hb]
      exact iff_of_true trivial (Or.inl ((contentSet_eq_empty_iff _ _ pix).mp hempty))
    | some box =>
      simp only [detectMethod1, hb]
      constructor
      · intro hnone
        split_ifs at hnone with hc
        refine Or.inr fun r hr => ?_
        cases hr
        exact hc
      · intro hor
        rcases hor with hall | hval
        · have hn : method1Box W H pix = none :=
            (method1Box_eq_none_iff W H pix).mpr ((contentSet_eq_empty_iff _ _ pix).mpr hall)
          rw [hb] at hn
          cases hn
        · rw [if_neg (hval box rfl)]
  · intro r hr
    simp only [detectMethod1, hr]

/-- Mask with exactly two content pixels, at (100, 100) and (130, 130):
its padded bounding box rescales to a 40px-wide box on an 800x800 image,
exactly 5% of the original dimensions. -/
def maskTwoPoints : Nat → Nat → Nat := fun x y =>
  if (x = 100 ∧ y = 100) ∨ (x = 130 ∧ y = 130) then 0 else 255

theorem contentSet_maskTwoPoints :
    contentSet (jsRound (800 * 800) (max 800 800)) (jsRound (800 * 800) (max 800 800))
        maskTwoPoints = {(100, 100), (130, 130)} := by
  have hdim : jsRound (800 * 800) (max 800 800) = 800 := by decide
  rw [hdim]
  ext p
  obtain ⟨a, b⟩ := p
  simp only [contentSet, gridPoints, Finset.mem_filter, Finset.mem_product, Finset.mem_range,
    maskTwoPoints, Finset.mem_insert, Finset.mem_singleton, Prod.mk.injEq]
  constructor
  · rintro ⟨⟨ha, hb⟩, hpix⟩
    by_cases hc : (a = 100 ∧ b = 100) ∨ (a = 130 ∧ b = 130)
    · exact hc
    · rw [if_neg hc] at hpix
      omega
  · rintro (⟨rfl, rfl⟩ | ⟨rfl, rfl⟩) <;> exact ⟨⟨by norm_num, by norm_num⟩, by norm_num⟩

theorem method1Box_maskTwoPoints :
    method1Box 800 800 maskTwoPoints = some ⟨95, 95, 40, 40⟩ := by
  simp only [method1Box, contentSet_maskTwoPoints]
  decide

theorem detectMethod1_of_box (W H : Nat) (pix : Nat → Nat → Nat) (r : Rect)
    (h : method1Box W H pix = some r) :
    detectMethod1 W H pix =
      if W < 20 * r.width ∧ H < 20 * r.height then some r else none := by
  simp only [detectMethod1, h]

/-- C4 (counterexample to the claim as stated): the mask with content pixels
(100,100) and (130,130) on an 800x800 image has a rescaled padded bounding
box of exactly 40x40 starting at (95,95) — covering exactly 5% (thus "at
least 5%") of each original dimension — yet Method 1 returns no proposal,
because the source demands strictly more than 5%. -/
theorem detectMethod1_validation_counterexample :
    method1Box 800 800 maskTwoPoints = some ⟨95, 95, 40, 40⟩
      ∧ 20 * 40 = 800
      ∧ detectMethod1 800 800 maskTwoPoints = none := by
  refine ⟨method1Box_maskTwoPoints, by norm_num, ?_⟩
  rw [detectMethod1_of_box 800 800 maskTwoPoints ⟨95, 95, 40, 40⟩ method1Box_maskTwoPoints]
  norm_num

/-- Mask with exactly two content pixels, at (100, 100) and (600, 600):
its padded bounding box passes the 5% validation. -/
def maskTwoPointsWide : Nat → Nat → Nat := fun x y =>
  if (x = 100 ∧ y = 100) ∨ (x = 600 ∧ y = 600) then 0 else 255

theorem contentSet_maskTwoPointsWide :
    contentSet (jsRound (800 * 800) (max 800 800)) (jsRound (800 * 800) (max 800 800))
        maskTwoPointsWide = {(100, 100), (600, 600)} := by
  have hdim : jsRound (800 * 800) (max 800 800) = 800 := by decide
  rw [hdim]
  ext p
  obtain ⟨a, b⟩ := p
  simp only [contentSet, gridPoints, Finset.mem_filter, Finset.mem_product, Finset.mem_range,
    maskTwoPointsWide, Finset.mem_insert, Finset.mem_singleton, Prod.mk.injEq]
  constructor
  · rintro ⟨⟨ha, hb⟩, hpix⟩
    by_cases hc : (a = 100 ∧ b = 100) ∨ (a = 600 ∧ b = 600)
    · exact hc
    · rw [if_neg hc] at hpix
      omega
  · rintro (⟨rfl, rfl⟩ | ⟨rfl, rfl⟩) <;> exact ⟨⟨by norm_num, by norm_num⟩, by norm_num⟩

theorem method1Box_maskTwoPointsWide :
    method1Box 800 800 maskTwoPointsWide = some ⟨75, 75, 550, 550⟩ := by
  simp only [method1Box, contentSet_maskTwoPointsWide]
  decide

theorem detectMethod1_spec_witness :
    method1Box 800 800 maskTwoPointsWide = some ⟨75, 75, 550, 550⟩
      ∧ detectMethod1 800 800 maskTwoPointsWide =
          (if (800 : Nat) < 20 * (⟨75, 75, 550, 550⟩ : Rect).width
              ∧ (800 : Nat) < 20 * (⟨75, 75, 550, 550⟩ : Rect).height
            then some ⟨75, 75, 550, 550⟩ else none) :=
  ⟨method1Box_maskTwoPointsWide,
   (detectMethod1_spec 800 800 maskTwoPointsWide).2 ⟨75, 75, 550, 550⟩
     method1Box_maskTwoPointsWide⟩

/-- C6 (counterexample to the claim as stated): with default options plus
`grayscale: true`, `correctPerspective` applies normalise and sharpen before
grayscale and resizes last — not the claimed
resize/grayscale/normalise/sharpen order. -/
theorem correctPerspective_order_counterexample :
    correctPerspectiveOps 2000 { grayscale := true } =
      [SharpOp.normalise, SharpOp.sharpen 4 5, SharpOp.toGrayscale,
        SharpOp.resize 1600, SharpOp.encode ImgFormat.jpeg 85]
      ∧ ¬ List.Pairwise (fun a b => stageIndex a ≤ stageIndex b)
          (correctPerspectiveOps 2000 { grayscale := true }) := by
  constructor
  · decide
  · decide

/-- C6 (amended): `enhanceDocument` applies its transforms in the fixed order
resize (exactly when `maxWidth > 0` and the current width exceeds it, with a
target below the current width, hence never upscaling), then grayscale, then
contrast normalization followed by sharpening, then the binarization
threshold, then encoding to the requested format; `correctPerspective`'s
post-crop enhancement instead applies normalise and sharpen, then grayscale,
then resize, then always jpeg encoding, with no threshold step. -/
theorem enhancement_order_spec (w : Nat) (o : EnhanceOptions) (oc : CPOptions) :
    List.Pairwise (fun a b => stageIndex a ≤ stageIndex b) (enhanceDocumentOps w o)
    ∧ ((∃ m, SharpOp.resize m ∈ enhanceDocumentOps w o) ↔ 0 < o.maxWidth ∧ o.maxWidth < w)
    ∧ (∀ m, SharpOp.resize m ∈ enhanceDocumentOps w o → m = o.maxWidth ∧ m < w)
    ∧ List.Pairwise (fun a b => cpStageIndex a ≤ cpStageIndex b) (correctPerspectiveOps w oc)
    ∧ (∀ t, SharpOp.thresholdOp t ∉ correctPerspectiveOps w oc) := by
  obtain ⟨fmt, q, mW, gs, enh, thr⟩ := o
  obtain ⟨ac, enh2, gs2, q2, mW2, rb⟩ := oc
  refine ⟨?_, ?_, ?_, ?_, ?_⟩
  · rcases thr with _ | t <;>
      simp only [enhanceDocumentOps] <;>
      split_ifs <;>
      simp_all [stageIndex, List.pairwise_cons, List.pairwise_append]
  · rcases thr with _ | t <;>
      simp only [enhanceDocumentOps] <;>
      split_ifs with h <;>
      simp_all [List.mem_append]
  · rcases thr with _ | t <;>
      simp only [enhanceDocumentOps] <;>
      split_ifs with h <;>
      intro m hm <;>
      simp_all [List.mem_append]
  · simp only [correctPerspectiveOps]
    split_ifs <;>
      simp_all [cpStageIndex, List.pairwise_cons, List.pairwise_append]
  · intro t
    simp only [correctPerspectiveOps]
    split_ifs <;> simp_all [List.mem_append]

theorem enhancement_order_spec_witness :
    SharpOp.resize 2000 ∈ enhanceDocumentOps 3000 {}
      ∧ (2000 = ({} : EnhanceOptions).maxWidth ∧ 2000 < 3000) :=
  ⟨by decide,
   (enhancement_order_spec 3000 {} {}).2.2.1 2000 (by decide)⟩

/-- C9: `processBatch` rejects an empty batch or one of more than 10 images
with an invalid-argument error before processing anything; for 1 to 10
images it returns exactly one result per input, the `i`-th result being
determined by image `i` alone and tagged with index `i` and the per-item
success flag, an exception while processing image `i` being recorded as that
item's failure entry without affecting any other entry. -/
theorem processBatch_spec (I P : Type) (images : List I)
    (process : I → Except String (Bool × P)) :
    (images.length ≠ 0 → images.length ≤ 10 →
      ∃ b, processBatch I P images process = .ok b
        ∧ b.results.length = images.length
        ∧ (∀ i img, images[i]? = some img →
            b.results[i]? = some (batchItem P i (process img)))
        ∧ (∀ i img e, images[i]? = some img → process img = .error e →
            b.results[i]? =
              some ({ success := false, index := i, payload := none
                      error := some e } : BatchItem P)))
    ∧ (images.length = 0 →
        processBatch I P images process = .error "At least one image is required")
    ∧ (10 < images.length →
        processBatch I P images process = .error "Maximum 10 images per batch") := by
  refine ⟨?_, ?_, ?_⟩
  · intro h0 h10
    have hok : processBatch I P images process =
        .ok { results := images.enum.map fun pr => batchItem P pr.1 (process pr.2)
              processedCount :=
                ((images.enum.map fun pr => batchItem P pr.1 (process pr.2)).filter
                  fun r => r.success).length
              failedCount :=
                ((images.enum.map fun pr => batchItem P pr.1 (process pr.2)).filter
                  fun r => !r.success).length } := by
      simp only [processBatch]
      rw [if_neg h0, if_neg (by omega)]
    refine ⟨_, hok, ?_, ?_, ?_⟩
    · simp
    · intro i img himg
      simp [List.getElem?_map, List.getElem?_enum, himg]
    · intro i img e himg hpr
      simp [List.getElem?_map, List.getElem?_enum, himg, hpr, batchItem]
  · intro h0
    simp only [processBatch]
    rw [if_pos h0]
  · intro h10
    simp only [processBatch]
    rw [if_neg (by omega), if_pos h10]

def batchProcessSample : Nat → Except String (Bool × Nat) :=
  fun n => if n = 7 then .ok (true, n) else .error "boom"

theorem processBatch_spec_witness :
    (∃ b, processBatch Nat Nat [7, 8] batchProcessSample = .ok b
        ∧ b.results.length = [7, 8].length
        ∧ (∀ i img, [7, 8][i]? = some img →
            b.results[i]? = some (batchItem Nat i (batchProcessSample img)))
        ∧ (∀ i img e, [7, 8][i]? = some img → batchProcessSample img = .error e →
            b.results[i]? =
              some ({ success := false, index := i, payload := none
                      error := some e } : BatchItem Nat)))
      ∧ processBatch Nat Nat ([] : List Nat) batchProcessSample
          = .error "At least one image is required"
      ∧ processBatch Nat Nat [1, 1, 1, 1, 1, 1, 1, 1, 1, 1, 1] batchProcessSample
          = .error "Maximum 10 images per batch" :=
  ⟨(processBatch_spec Nat Nat [7, 8] batchProcessSample).1 (by norm_num) (by norm_num),
   (processBatch_spec Nat Nat [] batchProcessSample).2.1 rfl,
   (processBatch_spec Nat Nat [1, 1, 1, 1, 1, 1, 1, 1, 1, 1, 1] batchProcessSample).2.2
     (by norm_num)⟩
